import Mathlib

/-!
# TON chain adaptor (`chain/ton/ton.go`)

A shallow embedding of the `ChainAdaptor` methods of `chain/ton/ton.go`.

* A Go result pair `(*Resp, error)` is a pair `Option Resp × Option GoError`
  (`none` is `nil`).
* A call that can panic has a `GoResult`: it either returns its value or panics with a
  message. `wallet.AddressFromPubKey` panics on a short key, and with it `ConvertAddress`.
* `uint64` values are natural numbers; arithmetic on them is reduced modulo `2 ^ 64`.
* Go strings are byte strings: `goBytes` gives the UTF-8 bytes of a string.
* The two backend clients (`TonClient`, `TonDataClient`), the transaction normalizer
  `ParseTxMessage` and the library entry points `wallet.AddressFromPubKey` and
  `address.ParseAddr` are not part of `ton.go`; the methods take them as arguments.
  `AddressFromPubKey` below models the library derivation up to the hash of the state cell.
-/

namespace Ton

/-! ## Shared types -/

/-- Status code of a response, `common.ReturnCode`. -/
inductive ReturnCode where
  | SUCCESS
  | ERROR
  deriving DecidableEq, Repr

/-- Value of the Go interface `error`, identified by the text of its `Error()` method. -/
structure GoError where
  Error : String
  deriving DecidableEq, Repr

deriving instance DecidableEq for Except

/-- Outcome of a Go call that may panic: the value it returns, or the panic message. -/
inductive GoResult (α : Type) where
  | returned (a : α)
  | panicked (msg : String)
  deriving DecidableEq, Repr

/-- Bytes of a Go string (its UTF-8 encoding), each byte a number below 256. -/
def goBytes (s : String) : List Nat :=
  (s.data.flatMap String.utf8EncodeChar).map UInt8.toNat

/-- Modulus of `uint64` arithmetic. -/
def uint64Mod : Nat := 2 ^ 64

/-- Go `+` on two `uint64` operands: the sum wraps around modulo `2 ^ 64`. -/
def addUint64 (x y : Nat) : Nat := (x + y) % uint64Mod

/-- `strconv.FormatUint(i, 10)`: the decimal digits of `i`, most significant first. -/
def FormatUint (i : Nat) : String := String.mk (Nat.toDigits 10 i)

/-! ## `encoding/hex` -/

/-- Errors of `encoding/hex`. -/
inductive HexError where
  | ErrLength
  | InvalidByteError (b : Nat)
  deriving DecidableEq, Repr

/-- Entry of `reverseHexTable` for byte `c`: the digit value, or `none` where the table
holds `0xff`. -/
def fromHexChar (c : Nat) : Option Nat :=
  if 48 ≤ c ∧ c ≤ 57 then some (c - 48)
  else if 97 ≤ c ∧ c ≤ 102 then some (c - 97 + 10)
  else if 65 ≤ c ∧ c ≤ 70 then some (c - 65 + 10)
  else none

/-- `hex.Decode`: decodes pairs of hex digits from the left. At the first invalid digit, or at
a dangling last digit, it stops and reports the error together with the bytes decoded so far. -/
def hexDecode : List Nat → List Nat × Option HexError
  | p :: q :: rest =>
    match fromHexChar p, fromHexChar q with
    | none, _ => ([], some (HexError.InvalidByteError p))
    | some _, none => ([], some (HexError.InvalidByteError q))
    | some a, some b =>
      let r := hexDecode rest
      ((a * 16 + b) :: r.1, r.2)
  | [p] =>
    match fromHexChar p with
    | none => ([], some (HexError.InvalidByteError p))
    | some _ => ([], some HexError.ErrLength)
  | [] => ([], none)

/-- `hex.DecodeString(s)`: returns `src[:n], err`, the decoded prefix and the error. -/
def hexDecodeString (s : String) : List Nat × Option HexError :=
  hexDecode (goBytes s)

/-! ## `tonutils-go/address` -/

/-- Flags of an address. -/
structure AddrFlags where
  bounceable : Bool
  testnet : Bool
  deriving DecidableEq, Repr

/-- Standard address of `tonutils-go`: flags, workchain and the 32 identity bytes. -/
structure Address where
  flags : AddrFlags
  workchain : Int
  data : List Nat
  deriving DecidableEq, Repr

/-- `parseFlags(b)`: bounceable unless bit 6 is set, testnet when bit 7 is set. -/
def parseFlags (b : Nat) : AddrFlags :=
  { bounceable := (b / 64) % 2 = 0, testnet := (b / 128) % 2 = 1 }

/-- `address.NewAddress(flags, workchain, data)`: the flags are parsed from the flag byte and
the workchain byte is read as `int8`. -/
def NewAddress (flagByte workchain : Nat) (data : List Nat) : Address :=
  { flags := parseFlags flagByte,
    workchain := if workchain % 256 < 128 then (workchain % 256 : Int)
                 else (workchain % 256 : Int) - 256,
    data := data }

/-- `Address.Copy`. -/
def Address.Copy (a : Address) : Address := a

/-- `Address.Testnet(t)`: sets the network flag. -/
def Address.Testnet (a : Address) (t : Bool) : Address :=
  { a with flags := { a.flags with testnet := t } }

/-- `Address.Bounce(b)`: sets the bounce flag. -/
def Address.Bounce (a : Address) (b : Bool) : Address :=
  { a with flags := { a.flags with bounceable := b } }

/-- `Address.FlagsToByte`: tag byte `0x11`, bit 6 set when not bounceable, bit 7 set on
testnet. -/
def Address.FlagsToByte (a : Address) : Nat :=
  0x11 + (if a.flags.bounceable then 0 else 0x40) + (if a.flags.testnet then 0x80 else 0)

/-- One bit step of CRC-16/XMODEM (polynomial `0x1021`). -/
def crc16Shift (c : Nat) : Nat :=
  if c &&& 0x8000 = 0 then (c <<< 1) % 0x10000 else ((c <<< 1) ^^^ 0x1021) % 0x10000

/-- CRC-16/XMODEM update by one byte. -/
def crc16Byte (c b : Nat) : Nat :=
  crc16Shift (crc16Shift (crc16Shift (crc16Shift (crc16Shift (crc16Shift (crc16Shift
    (crc16Shift (c ^^^ (b <<< 8)))))))))

/-- `crc16.Checksum(data, XMODEM)`. -/
def crc16Checksum (data : List Nat) : Nat := data.foldl crc16Byte 0

/-- Alphabet of `base64.RawURLEncoding`. -/
def encodeURL : List Char :=
  "ABCDEFGHIJKLMNOPQRSTUVWXYZabcdefghijklmnopqrstuvwxyz0123456789-_".data

/-- Character for a 6-bit value. -/
def b64Char (v : Nat) : Char := encodeURL.getD (v % 64) 'A'

/-- `base64.RawURLEncoding.EncodeToString`: three bytes give four characters, a tail of one or
two bytes gives two or three characters, without padding. -/
def base64RawURLEncode : List Nat → List Char
  | a :: b :: c :: rest =>
    let v := a * 65536 + b * 256 + c
    b64Char (v >>> 18) :: b64Char (v >>> 12) :: b64Char (v >>> 6) :: b64Char v ::
      base64RawURLEncode rest
  | [a, b] =>
    let v := a * 65536 + b * 256
    [b64Char (v >>> 18), b64Char (v >>> 12), b64Char (v >>> 6)]
  | [a] =>
    let v := a * 65536
    [b64Char (v >>> 18), b64Char (v >>> 12)]
  | [] => []

/-- The 34 bytes covered by the checksum: flag byte, workchain byte, 32 identity bytes
(`copy` into a zeroed 32-byte window). -/
def Address.prepareChecksumData (a : Address) : List Nat :=
  a.FlagsToByte :: (a.workchain % 256).toNat ::
    ((a.data.take 32).map (· % 256) ++ List.replicate (32 - a.data.length) 0)

/-- `Address.String` of a standard address: checksum data, big-endian CRC-16, base64url. -/
def Address.String (a : Address) : String :=
  let body := a.prepareChecksumData
  let crc := crc16Checksum body
  String.mk (base64RawURLEncode (body ++ [crc / 256, crc % 256]))

/-! ## `tonutils-go/ton/wallet` -/

/-- `wallet.MainnetGlobalID`. -/
def MainnetGlobalID : Int := -239

/-- `wallet.ConfigV5R1Final`. -/
structure ConfigV5R1Final where
  NetworkGlobalID : Int
  Workchain : Int
  deriving DecidableEq, Repr

/-- Type of `wallet.AddressFromPubKey(key, version, subwallet)`: the call returns
`(addr, err)` or panics. -/
abbrev AddressFromPubKeyFn :=
  List Nat → ConfigV5R1Final → Nat → GoResult (Except GoError Address)

/-- `wallet.AddressFromPubKey` of `tonutils-go` for a `ConfigV5R1Final`. The data cell of the
wallet state is built with `MustStoreSlice(pubKey, 256)`: on a key shorter than 32 bytes it
panics, of a longer key it stores the first 32 bytes. For this configuration no error is
returned. The address is `NewAddress(0, 0, hash)`, where `hash` is the hash of the state cell;
`stateHash` gives that hash as a function of the stored key bytes, the configuration and the
subwallet number. -/
def AddressFromPubKey (stateHash : List Nat → ConfigV5R1Final → Nat → List Nat) :
    AddressFromPubKeyFn := fun key version subwallet =>
  if key.length < 32 then GoResult.panicked "too small slice for this size"
  else GoResult.returned
    (Except.ok (NewAddress 0 0 (stateHash (key.take 32) version subwallet)))

/-- Type of `address.ParseAddr(addr)`. -/
abbrev ParseAddrFn := String → Except GoError Address

/-! ## Backend clients and the transaction normalizer -/

/-- Result of `TonDataClient.GetEstimateFee`: the four `uint64` fee components. -/
structure EstimateFeeResult where
  InFwdFee : Nat
  StorageFee : Nat
  GasFee : Nat
  FwdFee : Nat
  deriving DecidableEq, Repr

/-- Result of `TonDataClient.GetTxByAddr` and `GetTxByTxHash`: the records `Transactions`,
of a record type `τ`, and the remaining content `Extra` of the backend answer. -/
structure TxResult (τ β : Type) where
  Transactions : List τ
  Extra : β

/-- Node client: `GetAccountInfo(address)` returns `(balance, nonce, err)`. -/
structure TonClient where
  GetAccountInfo : String → Except GoError (String × Nat)

/-- Data API client. Each call returns `(ret, err)`; `Except.error` is `err != nil`. -/
structure TonDataClient (τ β : Type) where
  GetEstimateFee : String → String → Except GoError EstimateFeeResult
  PostSendTx : String → Except GoError String
  GetTxByAddr : String → Nat → Nat → Except GoError (TxResult τ β)
  GetTxByTxHash : String → Except GoError (TxResult τ β)

/-- The adaptor: its only state is the two client handles. -/
structure ChainAdaptor (τ β : Type) where
  tonClient : TonClient
  tonDataClient : TonDataClient τ β

/-- Type of `ParseTxMessage(ret, tx)`: returns `(txMessage, err)`, a possibly nil pointer to a
normalized transaction `μ` and a possibly nil error. -/
abbrev ParseTxMessageFn (τ β μ : Type) := TxResult τ β → τ → Option μ × Option GoError

/-! ## Requests and responses (`rpc/account`) -/

structure ConvertAddressRequest where
  Chain : String
  Network : String
  PublicKey : String
  deriving DecidableEq, Repr

structure ConvertAddressResponse where
  Code : ReturnCode
  Msg : String
  Address : String
  deriving DecidableEq, Repr

structure ValidAddressRequest where
  Chain : String
  Network : String
  Address : String
  deriving DecidableEq, Repr

structure ValidAddressResponse where
  Code : ReturnCode
  Msg : String
  Valid : Bool
  deriving DecidableEq, Repr

structure AccountRequest where
  Chain : String
  Network : String
  Address : String
  ContractAddress : String
  deriving DecidableEq, Repr

structure AccountResponse where
  Code : ReturnCode
  Msg : String
  Balance : String
  Sequence : String
  deriving DecidableEq, Repr

structure FeeRequest where
  Chain : String
  Network : String
  Address : String
  RawTx : String
  deriving DecidableEq, Repr

structure FeeResponse where
  Code : ReturnCode
  Msg : String
  NormalFee : String
  deriving DecidableEq, Repr

structure SendTxRequest where
  Chain : String
  RawTx : String
  deriving DecidableEq, Repr

structure SendTxResponse where
  Code : ReturnCode
  Msg : String
  TxHash : String
  deriving DecidableEq, Repr

structure TxAddressRequest where
  Chain : String
  Network : String
  Address : String
  Page : Nat
  Pagesize : Nat
  deriving DecidableEq, Repr

/-- Response of `GetTxByAddress`; `Tx` is the slice of pointers `[]*account.TxMessage`. -/
structure TxAddressResponse (μ : Type) where
  Code : ReturnCode
  Msg : String
  Tx : List (Option μ)

structure TxHashRequest where
  Chain : String
  Network : String
  Hash : String
  deriving DecidableEq, Repr

/-- Response of `GetTxByHash`; `Tx` is the pointer `*account.TxMessage`. -/
structure TxHashResponse (μ : Type) where
  Code : ReturnCode
  Msg : String
  Tx : Option μ
  deriving DecidableEq

/-- Response of the operations this chain does not serve: the fields the code sets. The
payload fields of the concrete response types stay at their zero values. -/
structure PlainResponse where
  Code : ReturnCode
  Msg : String
  deriving DecidableEq, Repr

structure ExtraDataRequest where
  Chain : String
  deriving DecidableEq, Repr

structure ExtraDataResponse where
  Code : ReturnCode
  Msg : String
  Value : String
  deriving DecidableEq, Repr

/-! ## Methods of `ChainAdaptor` -/

section Methods

variable {τ β μ ρ : Type}

/-- `ConvertAddress`: the hex error is dropped (`decodeString, _ :=`), the decoded bytes go to
`wallet.AddressFromPubKey` with the mainnet V5R1 configuration. There is no `recover`: a panic
of the derivation is a panic of `ConvertAddress`. -/
def ChainAdaptor.ConvertAddress (_c : ChainAdaptor τ β) (AddressFromPubKey : AddressFromPubKeyFn)
    (req : ConvertAddressRequest) :
    GoResult (Option ConvertAddressResponse × Option GoError) :=
  let decodeString := (hexDecodeString req.PublicKey).1
  match AddressFromPubKey decodeString
      { NetworkGlobalID := MainnetGlobalID, Workchain := 0 } 0 with
  | GoResult.panicked msg => GoResult.panicked msg
  | GoResult.returned (Except.error err) =>
    GoResult.returned (some { Code := ReturnCode.ERROR, Msg := err.Error, Address := "" }, none)
  | GoResult.returned (Except.ok addr) =>
    GoResult.returned
      (some { Code := ReturnCode.SUCCESS, Msg := "convert address successs",
              Address := ((addr.Copy.Testnet false).Bounce false).String }, none)

/-- `ValidAddress`. -/
def ChainAdaptor.ValidAddress (_c : ChainAdaptor τ β) (ParseAddr : ParseAddrFn)
    (req : ValidAddressRequest) : Option ValidAddressResponse × Option GoError :=
  match ParseAddr req.Address with
  | Except.error _ =>
    (some { Code := ReturnCode.ERROR, Msg := "convert address error", Valid := false }, none)
  | Except.ok _ =>
    (some { Code := ReturnCode.SUCCESS, Msg := "convert address successs", Valid := true }, none)

/-- `GetBlockByNumber`. -/
def ChainAdaptor.GetBlockByNumber (_c : ChainAdaptor τ β) (_req : ρ) :
    Option PlainResponse × Option GoError :=
  (some { Code := ReturnCode.SUCCESS, Msg := "Do not support this rpc interface" }, none)

/-- `GetBlockByHash`. -/
def ChainAdaptor.GetBlockByHash (_c : ChainAdaptor τ β) (_req : ρ) :
    Option PlainResponse × Option GoError :=
  (some { Code := ReturnCode.SUCCESS, Msg := "Do not support this rpc interface" }, none)

/-- `GetBlockHeaderByHash`. -/
def ChainAdaptor.GetBlockHeaderByHash (_c : ChainAdaptor τ β) (_req : ρ) :
    Option PlainResponse × Option GoError :=
  (some { Code := ReturnCode.SUCCESS, Msg := "Do not support this rpc interface" }, none)

/-- `GetBlockHeaderByNumber`. -/
def ChainAdaptor.GetBlockHeaderByNumber (_c : ChainAdaptor τ β) (_req : ρ) :
    Option PlainResponse × Option GoError :=
  (some { Code := ReturnCode.SUCCESS, Msg := "Do not support this rpc interface" }, none)

/-- `GetAccount`. -/
def ChainAdaptor.GetAccount (c : ChainAdaptor τ β) (req : AccountRequest) :
    Option AccountResponse × Option GoError :=
  match c.tonClient.GetAccountInfo req.Address with
  | Except.error err =>
    (some { Code := ReturnCode.ERROR, Msg := "get account info error",
            Balance := "", Sequence := "" }, some err)
  | Except.ok (balance, nonce) =>
    let sequence := FormatUint nonce
    (some { Code := ReturnCode.SUCCESS, Msg := "get account info success",
            Balance := balance, Sequence := sequence }, none)

/-- `GetFee`. -/
def ChainAdaptor.GetFee (c : ChainAdaptor τ β) (req : FeeRequest) :
    Option FeeResponse × Option GoError :=
  match c.tonDataClient.GetEstimateFee req.Address req.RawTx with
  | Except.error err =>
    (some { Code := ReturnCode.SUCCESS, Msg := "get fee fail", NormalFee := "" }, some err)
  | Except.ok ret =>
    let normalFee :=
      addUint64 (addUint64 (addUint64 ret.InFwdFee ret.StorageFee) ret.GasFee) ret.FwdFee
    (some { Code := ReturnCode.SUCCESS, Msg := "get fee success",
            NormalFee := FormatUint normalFee }, none)

/-- The loop of `GetTxByAddress` over the remaining records, `txList` being the messages
appended so far. -/
def GetTxByAddressLoop (ParseTxMessage : ParseTxMessageFn τ β μ) (ret : TxResult τ β) :
    List τ → List (Option μ) → Option (TxAddressResponse μ) × Option GoError
  | [], txList =>
    (some { Code := ReturnCode.SUCCESS, Msg := "get transactions fail", Tx := txList }, none)
  | transactionInfo :: rest, txList =>
    match ParseTxMessage ret transactionInfo with
    | (_, some blockRespErr) =>
      (some { Code := ReturnCode.ERROR, Msg := "get transactions fail", Tx := [] },
        some blockRespErr)
    | (txMessage, none) =>
      GetTxByAddressLoop ParseTxMessage ret rest (txList ++ [txMessage])

/-- `SendTx`. -/
def ChainAdaptor.SendTx (c : ChainAdaptor τ β) (req : SendTxRequest) :
    Option SendTxResponse × Option GoError :=
  match c.tonDataClient.PostSendTx req.RawTx with
  | Except.error err => (none, some err)
  | Except.ok hash => (some { Code := ReturnCode.SUCCESS, Msg := "success", TxHash := hash }, none)

/-- `GetTxByAddress`. -/
def ChainAdaptor.GetTxByAddress (c : ChainAdaptor τ β) (ParseTxMessage : ParseTxMessageFn τ β μ)
    (req : TxAddressRequest) : Option (TxAddressResponse μ) × Option GoError :=
  match c.tonDataClient.GetTxByAddr req.Address req.Page req.Pagesize with
  | Except.error err => (none, some err)
  | Except.ok ret => GetTxByAddressLoop ParseTxMessage ret ret.Transactions []

/-- `GetTxByHash`. -/
def ChainAdaptor.GetTxByHash (c : ChainAdaptor τ β) (ParseTxMessage : ParseTxMessageFn τ β μ)
    (req : TxHashRequest) : Option (TxHashResponse μ) × Option GoError :=
  match c.tonDataClient.GetTxByTxHash req.Hash with
  | Except.error err => (none, some err)
  | Except.ok ret =>
    match ret.Transactions with
    | [] => (some { Code := ReturnCode.ERROR, Msg := "get transactions fail", Tx := none }, none)
    | tx :: _ =>
      let txMsg := (ParseTxMessage ret tx).1
      (some { Code := ReturnCode.SUCCESS, Msg := "get transaction by hash success",
              Tx := txMsg }, none)

/-- `GetBlockByRange`. -/
def ChainAdaptor.GetBlockByRange (_c : ChainAdaptor τ β) (_req : ρ) :
    Option PlainResponse × Option GoError :=
  (some { Code := ReturnCode.SUCCESS, Msg := "Do not support this rpc interface" }, none)

/-- `BuildUnSignTransaction`. -/
def ChainAdaptor.BuildUnSignTransaction (_c : ChainAdaptor τ β) (_req : ρ) :
    Option PlainResponse × Option GoError :=
  (some { Code := ReturnCode.SUCCESS, Msg := "Do not support this rpc interface" }, none)

/-- `BuildSignedTransaction`. -/
def ChainAdaptor.BuildSignedTransaction (_c : ChainAdaptor τ β) (_req : ρ) :
    Option PlainResponse × Option GoError :=
  (some { Code := ReturnCode.SUCCESS, Msg := "Do not support this rpc interface" }, none)

/-- `DecodeTransaction`. -/
def ChainAdaptor.DecodeTransaction (_c : ChainAdaptor τ β) (_req : ρ) :
    Option PlainResponse × Option GoError :=
  (some { Code := ReturnCode.SUCCESS, Msg := "Do not support this rpc interface" }, none)

/-- `VerifySignedTransaction`. -/
def ChainAdaptor.VerifySignedTransaction (_c : ChainAdaptor τ β) (_req : ρ) :
    Option PlainResponse × Option GoError :=
  (some { Code := ReturnCode.SUCCESS, Msg := "Do not support this rpc interface" }, none)

/-- `GetExtraData`. -/
def ChainAdaptor.GetExtraData (_c : ChainAdaptor τ β) (req : ExtraDataRequest) :
    Option ExtraDataResponse × Option GoError :=
  (some { Code := ReturnCode.ERROR, Msg := "Do not support this api", Value := req.Chain }, none)

/-- `GetNftListByAddress`: `panic("implement me")`. -/
def ChainAdaptor.GetNftListByAddress (_c : ChainAdaptor τ β) (_req : ρ) :
    GoResult (Option PlainResponse × Option GoError) :=
  GoResult.panicked "implement me"

end Methods

/-! ## Data recorded in `ton_test.go` and sample backends -/

/-- Public key recorded in `Test_GeneralTonWallet` and used by
`TestChainAdaptor_ConvertAddress`. -/
def testPublicKey : String :=
  "f7b418ebb5a0af910eab73aefd0c6cce147c6dea6dd87ec952eea75342f8a6a5"

/-- The 32 bytes of `testPublicKey`. -/
def testKeyBytes : List Nat :=
  [247, 180, 24, 235, 181, 160, 175, 145, 14, 171, 115, 174, 253, 12, 108, 206,
   20, 124, 109, 234, 109, 216, 126, 201, 82, 238, 167, 83, 66, 248, 166, 165]

/-- Identity bytes (state hash) of the wallet of `testPublicKey`: bytes 2 to 33 of the
address `UQAHVc9OI1kqgh68auUYhe2YziHXDjw8fgla5sqw4kOszeTK` recorded in
`Test_GeneralTonWallet`. -/
def testIdentity : List Nat :=
  [7, 85, 207, 78, 35, 89, 42, 130, 30, 188, 106, 229, 24, 133, 237, 152,
   206, 33, 215, 14, 60, 60, 126, 9, 90, 230, 202, 176, 226, 67, 172, 205]

/-- Wallet address of `testPublicKey` as the derivation builds it, `NewAddress(0, 0, hash)`. -/
def testWalletAddress : Address := NewAddress 0 0 testIdentity

/-- Mainnet string recorded in `Test_GeneralTonWallet`. -/
def testMainnetString : String := "UQAHVc9OI1kqgh68auUYhe2YziHXDjw8fgla5sqw4kOszeTK"

/-- Testnet string recorded in `Test_GeneralTonWallet`. -/
def testTestnetString : String := "0QAHVc9OI1kqgh68auUYhe2YziHXDjw8fgla5sqw4kOszV9A"

/-- State hash known from `ton_test.go`: the recorded key has the recorded identity bytes.
The hash of any other key is not recorded; 32 zero bytes stand for it, and no statement below
evaluates it there. -/
def testStateHash : List Nat → ConfigV5R1Final → Nat → List Nat := fun key _ _ =>
  if key = testKeyBytes then testIdentity else List.replicate 32 0

/-- The library derivation over `testStateHash`. -/
def testAddressFromPubKey : AddressFromPubKeyFn := AddressFromPubKey testStateHash

/-- Address parser restricted to the strings recorded in `ton_test.go` and in the
specification: the recorded mainnet string parses to `NewAddress(0x51, 0, identity)`, any
other string is refused. -/
def testParseAddr : ParseAddrFn := fun s =>
  if s = testMainnetString then Except.ok (NewAddress 0x51 0 testIdentity)
  else Except.error { Error := "incorrect address data" }

/-- Node client whose call fails. -/
def offlineTonClient : TonClient :=
  { GetAccountInfo := fun _ => Except.error { Error := "connection refused" } }

/-- Data client with fixed answers `fee` for `GetEstimateFee` and `txs` for both transaction
queries. Records are numbers. -/
def fixedDataClient (fee : Except GoError EstimateFeeResult)
    (txs : Except GoError (TxResult Nat Unit)) : TonDataClient Nat Unit :=
  { GetEstimateFee := fun _ _ => fee,
    PostSendTx := fun _ => Except.error { Error := "connection refused" },
    GetTxByAddr := fun _ _ _ => txs,
    GetTxByTxHash := fun _ => txs }

/-- Adaptor over `offlineTonClient` and `fixedDataClient`. -/
def fixedAdaptor (fee : Except GoError EstimateFeeResult)
    (txs : Except GoError (TxResult Nat Unit)) : ChainAdaptor Nat Unit :=
  { tonClient := offlineTonClient, tonDataClient := fixedDataClient fee txs }

/-- Adaptor none of whose backends answers. -/
def offlineAdaptor : ChainAdaptor Nat Unit :=
  fixedAdaptor (Except.error { Error := "connection refused" })
    (Except.error { Error := "connection refused" })

/-- Adaptor whose node client answers with balance `balance` and sequence number `nonce`. -/
def accountAdaptor (balance : String) (nonce : Nat) : ChainAdaptor Nat Unit :=
  { tonClient := { GetAccountInfo := fun _ => Except.ok (balance, nonce) },
    tonDataClient := fixedDataClient (Except.error { Error := "connection refused" })
      (Except.error { Error := "connection refused" }) }

/-- Normalizer over number records that reads the whole backend answer: record `n`
normalizes to `n` plus the number of records in the answer. -/
def countingParseTxMessage : ParseTxMessageFn Nat Unit Nat := fun ret tx =>
  (some (tx + ret.Transactions.length), none)

/-- Normalizer over number records: record `0` is malformed, any other record `n` normalizes
to `n`. -/
def sampleParseTxMessage : ParseTxMessageFn Nat Unit Nat := fun _ tx =>
  if tx = 0 then (none, some { Error := "malformed record" }) else (some tx, none)

/-! ## Theorems -/

/-- Three wrapping additions give the sum modulo `2 ^ 64`. -/
theorem addUint64_chain (a b c d : Nat) :
    addUint64 (addUint64 (addUint64 a b) c) d = (a + b + c + d) % 2 ^ 64 := by
  unfold addUint64 uint64Mod
  omega

/-- The model of `Address.String` reproduces both strings recorded in `ton_test.go`. -/
theorem String_test_vectors :
    ((testWalletAddress.Copy.Testnet false).Bounce false).String = testMainnetString ∧
    ((testWalletAddress.Copy.Testnet true).Bounce false).String = testTestnetString := by
  set_option maxRecDepth 100000 in
  decide

/-- The recorded public key decodes without error to `testKeyBytes`. -/
theorem hexDecodeString_testPublicKey :
    hexDecodeString testPublicKey = (testKeyBytes, none) := by
  decide

/-! ### C1: fee normalization -/

/-- C1 (as stated) fails: with components `2^63-1`, `2^63-1`, `2`, `0`, all within
`0 .. 2^63-1`, the call succeeds and `NormalFee` is `"0"`, while the exact sum `2^64` has the
decimal string `"18446744073709551616"`. -/
theorem C1_counterexample :
    2 ^ 63 - 1 ≤ 2 ^ 63 - 1 ∧ 2 ≤ 2 ^ 63 - 1 ∧ 0 ≤ 2 ^ 63 - 1 ∧
    ChainAdaptor.GetFee
        (fixedAdaptor (Except.ok { InFwdFee := 2 ^ 63 - 1, StorageFee := 2 ^ 63 - 1,
                                   GasFee := 2, FwdFee := 0 })
          (Except.error { Error := "connection refused" }))
        { Chain := "Ton", Network := "mainnet", Address := "", RawTx := "" }
      = (some { Code := ReturnCode.SUCCESS, Msg := "get fee success", NormalFee := "0" }, none) ∧
    FormatUint ((2 ^ 63 - 1) + (2 ^ 63 - 1) + 2 + 0) = "18446744073709551616" ∧
    "0" ≠ FormatUint ((2 ^ 63 - 1) + (2 ^ 63 - 1) + 2 + 0) := by
  decide

/-- C1 (amended): for every fee breakdown the backend returns, a successful `GetFee` has a nil
error, code `SUCCESS` and `NormalFee` the decimal string of the sum of the four components
reduced modulo `2 ^ 64`; whenever the sum is below `2 ^ 64`, in particular when every
component is at most `2 ^ 62 - 1`, this is the decimal string of the exact sum, and
components `1, 2, 3, 4` give `"10"`. -/
theorem C1_GetFee_sum_mod {τ β : Type} (c : ChainAdaptor τ β) (req : FeeRequest)
    (ret : EstimateFeeResult)
    (h : c.tonDataClient.GetEstimateFee req.Address req.RawTx = Except.ok ret) :
    c.GetFee req
      = (some { Code := ReturnCode.SUCCESS, Msg := "get fee success",
                NormalFee := FormatUint
                  ((ret.InFwdFee + ret.StorageFee + ret.GasFee + ret.FwdFee) % 2 ^ 64) },
         none) ∧
    (ret.InFwdFee + ret.StorageFee + ret.GasFee + ret.FwdFee < 2 ^ 64 →
      c.GetFee req
        = (some { Code := ReturnCode.SUCCESS, Msg := "get fee success",
                  NormalFee := FormatUint
                    (ret.InFwdFee + ret.StorageFee + ret.GasFee + ret.FwdFee) },
           none)) ∧
    ((ret.InFwdFee ≤ 2 ^ 62 - 1 ∧ ret.StorageFee ≤ 2 ^ 62 - 1 ∧ ret.GasFee ≤ 2 ^ 62 - 1 ∧
        ret.FwdFee ≤ 2 ^ 62 - 1) →
      ret.InFwdFee + ret.StorageFee + ret.GasFee + ret.FwdFee < 2 ^ 64) ∧
    (ret = { InFwdFee := 1, StorageFee := 2, GasFee := 3, FwdFee := 4 } →
      (c.GetFee req).1.map FeeResponse.NormalFee = some "10") := by
  have key : c.GetFee req
      = (some { Code := ReturnCode.SUCCESS, Msg := "get fee success",
                NormalFee := FormatUint
                  ((ret.InFwdFee + ret.StorageFee + ret.GasFee + ret.FwdFee) % 2 ^ 64) },
         none) := by
    simp only [ChainAdaptor.GetFee, h, addUint64_chain]
  refine ⟨key, ?_, ?_, ?_⟩
  · intro hlt
    rw [key, Nat.mod_eq_of_lt hlt]
  · intro hb
    omega
  · intro hret
    rw [key, hret]
    decide

/-- Witness for C1: a backend reporting `1, 2, 3, 4` yields `NormalFee = "10"`. -/
theorem C1_GetFee_sum_mod_witness :
    (fixedDataClient (Except.ok { InFwdFee := 1, StorageFee := 2, GasFee := 3, FwdFee := 4 })
        (Except.error { Error := "connection refused" })).GetEstimateFee "" ""
      = Except.ok { InFwdFee := 1, StorageFee := 2, GasFee := 3, FwdFee := 4 } ∧
    (ChainAdaptor.GetFee
        (fixedAdaptor (Except.ok { InFwdFee := 1, StorageFee := 2, GasFee := 3, FwdFee := 4 })
          (Except.error { Error := "connection refused" }))
        { Chain := "Ton", Network := "mainnet", Address := "", RawTx := "" }).1.map
          FeeResponse.NormalFee = some "10" :=
  ⟨rfl,
   (C1_GetFee_sum_mod
      (fixedAdaptor (Except.ok { InFwdFee := 1, StorageFee := 2, GasFee := 3, FwdFee := 4 })
        (Except.error { Error := "connection refused" }))
      { Chain := "Ton", Network := "mainnet", Address := "", RawTx := "" }
      { InFwdFee := 1, StorageFee := 2, GasFee := 3, FwdFee := 4 } rfl).2.2.2 rfl⟩

/-! ### The string form of an address -/

/-- Each 6-bit value is the position of its character in the alphabet. -/
theorem b64Char_index : ∀ x, x < 64 → encodeURL.indexOf (b64Char x) = x := by
  decide

/-- Equal characters come from equal 6-bit values. -/
theorem b64Char_mod {x y : Nat} (h : b64Char x = b64Char y) : x % 64 = y % 64 := by
  have hx := b64Char_index (x % 64) (Nat.mod_lt _ (by decide))
  have hy := b64Char_index (y % 64) (Nat.mod_lt _ (by decide))
  have e1 : b64Char (x % 64) = b64Char x := by simp [b64Char]
  have e2 : b64Char (y % 64) = b64Char y := by simp [b64Char]
  rw [e1] at hx
  rw [e2] at hy
  rw [← hx, ← hy, h]

/-- The base64 encoder is injective on byte lists of equal length. -/
theorem base64RawURLEncode_inj : ∀ (l1 l2 : List Nat), (∀ x ∈ l1, x < 256) →
    (∀ x ∈ l2, x < 256) → l1.length = l2.length →
    base64RawURLEncode l1 = base64RawURLEncode l2 → l1 = l2 := by
  intro l1
  induction l1 using base64RawURLEncode.induct with
  | case1 a b c rest ih =>
    intro l2 h1 h2 hlen henc
    match l2, hlen with
    | a2 :: b2 :: c2 :: rest2, hlen =>
      simp only [base64RawURLEncode, List.cons.injEq] at henc
      obtain ⟨e1, e2, e3, e4, et⟩ := henc
      have m1 := b64Char_mod e1
      have m2 := b64Char_mod e2
      have m3 := b64Char_mod e3
      have m4 := b64Char_mod e4
      simp only [Nat.shiftRight_eq_div_pow] at m1 m2 m3
      have ha := h1 a (by simp)
      have hb := h1 b (by simp)
      have hc := h1 c (by simp)
      have ha2 := h2 a2 (by simp)
      have hb2 := h2 b2 (by simp)
      have hc2 := h2 c2 (by simp)
      have hr := ih rest2 (fun x hx => h1 x (by simp [hx])) (fun x hx => h2 x (by simp [hx]))
        (by simpa using hlen) et
      subst hr
      have : a = a2 ∧ b = b2 ∧ c = c2 := by omega
      obtain ⟨rfl, rfl, rfl⟩ := this
      rfl
  | case2 a b =>
    intro l2 h1 h2 hlen henc
    match l2, hlen with
    | [a2, b2], _ =>
      simp only [base64RawURLEncode, List.cons.injEq] at henc
      obtain ⟨e1, e2, e3, _⟩ := henc
      have m1 := b64Char_mod e1
      have m2 := b64Char_mod e2
      have m3 := b64Char_mod e3
      simp only [Nat.shiftRight_eq_div_pow] at m1 m2 m3
      have ha := h1 a (by simp)
      have hb := h1 b (by simp)
      have ha2 := h2 a2 (by simp)
      have hb2 := h2 b2 (by simp)
      have : a = a2 ∧ b = b2 := by omega
      obtain ⟨rfl, rfl⟩ := this
      rfl
  | case3 a =>
    intro l2 h1 h2 hlen henc
    match l2, hlen with
    | [a2], _ =>
      simp only [base64RawURLEncode, List.cons.injEq] at henc
      obtain ⟨e1, e2, _⟩ := henc
      have m1 := b64Char_mod e1
      have m2 := b64Char_mod e2
      simp only [Nat.shiftRight_eq_div_pow] at m1 m2
      have ha := h1 a (by simp)
      have ha2 := h2 a2 (by simp)
      have : a = a2 := by omega
      subst this
      rfl
  | case4 =>
    intro l2 h1 h2 hlen henc
    match l2, hlen with
    | [], _ => rfl

/-- A CRC step stays below `2 ^ 16`. -/
theorem crc16Shift_lt (c : Nat) : crc16Shift c < 0x10000 := by
  unfold crc16Shift
  split <;> exact Nat.mod_lt _ (by decide)

/-- The checksum of any byte list is below `2 ^ 16`. -/
theorem crc16Checksum_lt (data : List Nat) : crc16Checksum data < 0x10000 := by
  unfold crc16Checksum
  have key : ∀ (l : List Nat) (init : Nat), init < 0x10000 →
      List.foldl crc16Byte init l < 0x10000 := by
    intro l
    induction l with
    | nil => intro init h; simpa using h
    | cons b rest ih =>
      intro init _
      simp only [List.foldl_cons]
      exact ih _ (by unfold crc16Byte; exact crc16Shift_lt _)
  exact key data 0 (by decide)

/-- The checksum data has 34 bytes. -/
theorem prepareChecksumData_length (a : Address) : a.prepareChecksumData.length = 34 := by
  simp only [Address.prepareChecksumData, List.length_cons, List.length_append, List.length_map,
    List.length_take, List.length_replicate]
  omega

/-- Every entry of the checksum data is a byte. -/
theorem prepareChecksumData_lt (a : Address) : ∀ x ∈ a.prepareChecksumData, x < 256 := by
  intro x hx
  simp only [Address.prepareChecksumData, List.mem_cons, List.mem_append, List.mem_map,
    List.mem_replicate] at hx
  rcases hx with rfl | rfl | ⟨y, _, rfl⟩ | ⟨_, rfl⟩
  · unfold Address.FlagsToByte
    split <;> split <;> decide
  · omega
  · exact Nat.mod_lt _ (by decide)
  · decide

/-- The string form determines the checksum data: two addresses with the same string have the
same flag byte, workchain byte and identity bytes. -/
theorem String_determines_data (a b : Address) (h : a.String = b.String) :
    a.prepareChecksumData = b.prepareChecksumData := by
  unfold Address.String at h
  replace h := congrArg String.data h
  simp only at h
  have hbytes : ∀ (d : Address), ∀ x ∈ d.prepareChecksumData ++
      [crc16Checksum d.prepareChecksumData / 256, crc16Checksum d.prepareChecksumData % 256],
      x < 256 := by
    intro d x hx
    rcases List.mem_append.mp hx with hx | hx
    · exact prepareChecksumData_lt d x hx
    · have hc := crc16Checksum_lt d.prepareChecksumData
      simp only [List.mem_cons, List.mem_singleton, List.not_mem_nil, or_false] at hx
      rcases hx with rfl | rfl <;> omega
  have hl := base64RawURLEncode_inj _ _ (hbytes a) (hbytes b)
    (by simp [prepareChecksumData_length]) h
  exact List.append_inj_left hl (by simp [prepareChecksumData_length])

/-! ### C2, C3, C9: `ConvertAddress` -/

/-- The result of `ConvertAddress` in terms of the outcome of the derivation on the decoded
bytes. -/
theorem ConvertAddress_eq {τ β : Type} (c : ChainAdaptor τ β)
    (AddressFromPubKey : AddressFromPubKeyFn) (req : ConvertAddressRequest) :
    c.ConvertAddress AddressFromPubKey req =
      match AddressFromPubKey (hexDecodeString req.PublicKey).1
          { NetworkGlobalID := MainnetGlobalID, Workchain := 0 } 0 with
      | GoResult.panicked msg => GoResult.panicked msg
      | GoResult.returned (Except.error err) =>
        GoResult.returned
          (some { Code := ReturnCode.ERROR, Msg := err.Error, Address := "" }, none)
      | GoResult.returned (Except.ok addr) =>
        GoResult.returned
          (some { Code := ReturnCode.SUCCESS, Msg := "convert address successs",
                  Address := ((addr.Copy.Testnet false).Bounce false).String }, none) := by
  rfl

/-- C2 (code defect): the malformed key made of the recorded public key followed by `zz`
is rejected by `hex.DecodeString` with an invalid-byte error, yet `ConvertAddress` drops that
error and hands the 32 bytes decoded so far to the derivation; whenever the derivation accepts
the recorded 32-byte key, the response is `SUCCESS` and carries an address. -/
theorem C2_malformed_hex_accepted {τ β : Type} (c : ChainAdaptor τ β)
    (AddressFromPubKey : AddressFromPubKeyFn) (addr : Address)
    (h : AddressFromPubKey testKeyBytes
      { NetworkGlobalID := MainnetGlobalID, Workchain := 0 } 0
        = GoResult.returned (Except.ok addr)) :
    hexDecodeString (testPublicKey ++ "zz")
      = (testKeyBytes, some (HexError.InvalidByteError 122)) ∧
    c.ConvertAddress AddressFromPubKey
        { Chain := "Ton", Network := "mainnet", PublicKey := testPublicKey ++ "zz" }
      = GoResult.returned
          (some { Code := ReturnCode.SUCCESS, Msg := "convert address successs",
                  Address := ((addr.Copy.Testnet false).Bounce false).String }, none) := by
  have hd : hexDecodeString (testPublicKey ++ "zz")
      = (testKeyBytes, some (HexError.InvalidByteError 122)) := by decide
  refine ⟨hd, ?_⟩
  rw [ConvertAddress_eq]
  simp only [hd, h]

/-- Witness for C2: with the library derivation over the recorded key pair, the malformed key
`testPublicKey ++ "zz"` receives the recorded mainnet address. -/
theorem C2_malformed_hex_accepted_witness :
    testAddressFromPubKey testKeyBytes { NetworkGlobalID := MainnetGlobalID, Workchain := 0 } 0
      = GoResult.returned (Except.ok testWalletAddress) ∧
    ChainAdaptor.ConvertAddress offlineAdaptor testAddressFromPubKey
        { Chain := "Ton", Network := "mainnet", PublicKey := testPublicKey ++ "zz" }
      = GoResult.returned
          (some { Code := ReturnCode.SUCCESS, Msg := "convert address successs",
                  Address := ((testWalletAddress.Copy.Testnet false).Bounce false).String },
           none) :=
  ⟨by decide,
   (C2_malformed_hex_accepted offlineAdaptor testAddressFromPubKey testWalletAddress
      (by decide)).2⟩

/-- C3 (as stated) fails: for the recorded public key a request naming the test network
receives the recorded mainnet string, which differs from the testnet string of the same
address. -/
theorem C3_counterexample :
    ChainAdaptor.ConvertAddress offlineAdaptor testAddressFromPubKey
        { Chain := "Ton", Network := "testnet", PublicKey := testPublicKey }
      = GoResult.returned
          (some { Code := ReturnCode.SUCCESS, Msg := "convert address successs",
                  Address := "UQAHVc9OI1kqgh68auUYhe2YziHXDjw8fgla5sqw4kOszeTK" }, none) ∧
    ((testWalletAddress.Copy.Testnet true).Bounce false).String
      = "0QAHVc9OI1kqgh68auUYhe2YziHXDjw8fgla5sqw4kOszV9A" ∧
    ChainAdaptor.ConvertAddress offlineAdaptor testAddressFromPubKey
        { Chain := "Ton", Network := "testnet", PublicKey := testPublicKey }
      = ChainAdaptor.ConvertAddress offlineAdaptor testAddressFromPubKey
        { Chain := "Ton", Network := "mainnet", PublicKey := testPublicKey } := by
  set_option maxRecDepth 100000 in
  decide

/-- C3 (amended): for every public key whose derivation succeeds, `ConvertAddress` renders
the derived address non-bounceable and for the main network whatever network the request
names: the address is the string of the derived address with both flags cleared (flag byte
`0x51`), and two requests with the same key that name different networks receive the same
response. -/
theorem C3_ConvertAddress_always_mainnet {τ β : Type} (c : ChainAdaptor τ β)
    (AddressFromPubKey : AddressFromPubKeyFn) (req : ConvertAddressRequest) (addr : Address)
    (h : AddressFromPubKey (hexDecodeString req.PublicKey).1
      { NetworkGlobalID := MainnetGlobalID, Workchain := 0 } 0
        = GoResult.returned (Except.ok addr)) :
    c.ConvertAddress AddressFromPubKey req
      = GoResult.returned
          (some { Code := ReturnCode.SUCCESS, Msg := "convert address successs",
                  Address := Address.String
                    { addr with flags := { bounceable := false, testnet := false } } },
           none) ∧
    Address.FlagsToByte { addr with flags := { bounceable := false, testnet := false } } = 0x51 ∧
    (∀ network : String,
      c.ConvertAddress AddressFromPubKey { req with Network := network }
        = c.ConvertAddress AddressFromPubKey req) := by
  refine ⟨?_, rfl, ?_⟩
  · rw [ConvertAddress_eq]
    simp only [h]
    rfl
  · intro network
    rfl

/-- Witness for C3: the recorded public key, requested for the test network. -/
theorem C3_ConvertAddress_always_mainnet_witness :
    testAddressFromPubKey (hexDecodeString testPublicKey).1
        { NetworkGlobalID := MainnetGlobalID, Workchain := 0 } 0
      = GoResult.returned (Except.ok testWalletAddress) ∧
    ChainAdaptor.ConvertAddress offlineAdaptor testAddressFromPubKey
        { Chain := "Ton", Network := "mainnet", PublicKey := testPublicKey }
      = ChainAdaptor.ConvertAddress offlineAdaptor testAddressFromPubKey
        { Chain := "Ton", Network := "testnet", PublicKey := testPublicKey } :=
  ⟨by decide,
   (C3_ConvertAddress_always_mainnet offlineAdaptor testAddressFromPubKey
      { Chain := "Ton", Network := "testnet", PublicKey := testPublicKey } testWalletAddress
      (by decide)).2.2 "mainnet"⟩

/-- C9 (code defect): whenever the derivation returns, `ConvertAddress` returns a nil error,
with code `ERROR`, the error's message and an empty address when the derivation reports an
error, and otherwise with code `SUCCESS` and the mainnet, non-bounceable string of the derived
address (a string that fixes the flag byte `0x51`, the workchain byte and the identity bytes);
two calls with the same public key have identical outcomes. But `ConvertAddress` does not
return for every request: a panic of the derivation is a panic of `ConvertAddress`, and the
library derivation panics whenever the bytes decoded from the public key are fewer than 32,
while on 32 bytes or more it succeeds. -/
theorem C9_ConvertAddress_response {τ β : Type} (c : ChainAdaptor τ β)
    (F : AddressFromPubKeyFn) (req : ConvertAddressRequest) :
    (∀ err : GoError,
      F (hexDecodeString req.PublicKey).1
          { NetworkGlobalID := MainnetGlobalID, Workchain := 0 } 0
        = GoResult.returned (Except.error err) →
      c.ConvertAddress F req
        = GoResult.returned
            (some { Code := ReturnCode.ERROR, Msg := err.Error, Address := "" }, none)) ∧
    (∀ addr : Address,
      F (hexDecodeString req.PublicKey).1
          { NetworkGlobalID := MainnetGlobalID, Workchain := 0 } 0
        = GoResult.returned (Except.ok addr) →
      c.ConvertAddress F req
          = GoResult.returned
              (some { Code := ReturnCode.SUCCESS, Msg := "convert address successs",
                      Address := ((addr.Copy.Testnet false).Bounce false).String }, none) ∧
        ((addr.Copy.Testnet false).Bounce false).prepareChecksumData
          = 0x51 :: (addr.workchain % 256).toNat ::
              ((addr.data.take 32).map (· % 256) ++ List.replicate (32 - addr.data.length) 0) ∧
        (∀ other : Address,
          other.String = ((addr.Copy.Testnet false).Bounce false).String →
          other.prepareChecksumData
            = 0x51 :: (addr.workchain % 256).toNat ::
                ((addr.data.take 32).map (· % 256) ++
                  List.replicate (32 - addr.data.length) 0))) ∧
    (∀ (c2 : ChainAdaptor τ β) (req2 : ConvertAddressRequest),
      req2.PublicKey = req.PublicKey → c2.ConvertAddress F req2 = c.ConvertAddress F req) ∧
    (∀ msg : String,
      F (hexDecodeString req.PublicKey).1
          { NetworkGlobalID := MainnetGlobalID, Workchain := 0 } 0 = GoResult.panicked msg →
      c.ConvertAddress F req = GoResult.panicked msg) ∧
    (∀ stateHash : List Nat → ConfigV5R1Final → Nat → List Nat,
      (hexDecodeString req.PublicKey).1.length < 32 →
      c.ConvertAddress (AddressFromPubKey stateHash) req
        = GoResult.panicked "too small slice for this size") ∧
    (∀ stateHash : List Nat → ConfigV5R1Final → Nat → List Nat,
      32 ≤ (hexDecodeString req.PublicKey).1.length →
      c.ConvertAddress (AddressFromPubKey stateHash) req
        = GoResult.returned
            (some { Code := ReturnCode.SUCCESS, Msg := "convert address successs",
                    Address :=
                      (((NewAddress 0 0
                          (stateHash ((hexDecodeString req.PublicKey).1.take 32)
                            { NetworkGlobalID := MainnetGlobalID, Workchain := 0 } 0)).Copy.Testnet
                        false).Bounce false).String }, none)) := by
  refine ⟨?_, ?_, ?_, ?_, ?_, ?_⟩
  · intro err herr
    rw [ConvertAddress_eq]
    simp only [herr]
  · intro addr hok
    refine ⟨?_, rfl, ?_⟩
    · rw [ConvertAddress_eq]
      simp only [hok]
    · intro other hother
      exact String_determines_data other _ hother
  · intro c2 req2 hpk
    rw [ConvertAddress_eq, ConvertAddress_eq, hpk]
  · intro msg hp
    rw [ConvertAddress_eq]
    simp only [hp]
  · intro stateHash hshort
    rw [ConvertAddress_eq]
    simp only [AddressFromPubKey, hshort, if_true]
  · intro stateHash hlong
    rw [ConvertAddress_eq]
    have hnot : ¬ (hexDecodeString req.PublicKey).1.length < 32 := by omega
    simp only [AddressFromPubKey, hnot, if_false]

/-- Witness for C9: with the library derivation, the empty public key makes `ConvertAddress`
panic, and the request of `TestChainAdaptor_ConvertAddress` returns the recorded mainnet
string. -/
theorem C9_ConvertAddress_response_witness :
    (hexDecodeString "").1.length < 32 ∧
    ChainAdaptor.ConvertAddress offlineAdaptor (AddressFromPubKey testStateHash)
        { Chain := "Ton", Network := "mainnet", PublicKey := "" }
      = GoResult.panicked "too small slice for this size" ∧
    testAddressFromPubKey (hexDecodeString testPublicKey).1
        { NetworkGlobalID := MainnetGlobalID, Workchain := 0 } 0
      = GoResult.returned (Except.ok testWalletAddress) ∧
    ChainAdaptor.ConvertAddress offlineAdaptor testAddressFromPubKey
        { Chain := "Ton", Network := "mainnet", PublicKey := testPublicKey }
      = GoResult.returned
          (some { Code := ReturnCode.SUCCESS, Msg := "convert address successs",
                  Address := ((testWalletAddress.Copy.Testnet false).Bounce false).String },
           none) :=
  ⟨by decide,
   (C9_ConvertAddress_response offlineAdaptor testAddressFromPubKey
      { Chain := "Ton", Network := "mainnet", PublicKey := "" }).2.2.2.2.1
      testStateHash (by decide),
   by decide,
   ((C9_ConvertAddress_response offlineAdaptor testAddressFromPubKey
      { Chain := "Ton", Network := "mainnet", PublicKey := testPublicKey }).2.1
      testWalletAddress (by decide)).1⟩

/-! ### C4: `ValidAddress` -/

/-- C4 (as stated) fails: for the malformed string `not-an-address` the response code is
`ERROR`, not `SUCCESS`. -/
theorem C4_counterexample :
    ChainAdaptor.ValidAddress offlineAdaptor testParseAddr
        { Chain := "Ton", Network := "mainnet", Address := "not-an-address" }
      = (some { Code := ReturnCode.ERROR, Msg := "convert address error", Valid := false },
         none) ∧
    ReturnCode.ERROR ≠ ReturnCode.SUCCESS := by
  decide

/-- C4 (amended): for every address string `ValidAddress` returns a nil error; when the
address parses the response has code `SUCCESS` and `Valid` true, and when it does not parse
the response has code `ERROR` and `Valid` false; so `Valid` is true exactly when the address
parses, and the code is `SUCCESS` exactly then. -/
theorem C4_ValidAddress_response {τ β : Type} (c : ChainAdaptor τ β) (ParseAddr : ParseAddrFn)
    (req : ValidAddressRequest) :
    (c.ValidAddress ParseAddr req).2 = none ∧
    ((∃ addr, ParseAddr req.Address = Except.ok addr) →
      (c.ValidAddress ParseAddr req).1
        = some { Code := ReturnCode.SUCCESS, Msg := "convert address successs",
                 Valid := true }) ∧
    ((∃ err, ParseAddr req.Address = Except.error err) →
      (c.ValidAddress ParseAddr req).1
        = some { Code := ReturnCode.ERROR, Msg := "convert address error", Valid := false }) ∧
    ((c.ValidAddress ParseAddr req).1.map ValidAddressResponse.Valid = some true ↔
      ∃ addr, ParseAddr req.Address = Except.ok addr) ∧
    ((c.ValidAddress ParseAddr req).1.map ValidAddressResponse.Code = some ReturnCode.SUCCESS ↔
      ∃ addr, ParseAddr req.Address = Except.ok addr) := by
  unfold ChainAdaptor.ValidAddress
  cases hp : ParseAddr req.Address with
  | error err => simp
  | ok addr => simp

/-- Witness for C4: the address of `TestChainAdaptor_ValidAddress` parses and is reported
valid with code `SUCCESS`. -/
theorem C4_ValidAddress_response_witness :
    (∃ addr, testParseAddr testMainnetString = Except.ok addr) ∧
    (ChainAdaptor.ValidAddress offlineAdaptor testParseAddr
        { Chain := "Ton", Network := "mainnet", Address := testMainnetString }).1
      = some { Code := ReturnCode.SUCCESS, Msg := "convert address successs", Valid := true } :=
  ⟨⟨NewAddress 0x51 0 testIdentity, by decide⟩,
   (C4_ValidAddress_response offlineAdaptor testParseAddr
      { Chain := "Ton", Network := "mainnet", Address := testMainnetString }).2.1
      ⟨NewAddress 0x51 0 testIdentity, by decide⟩⟩

/-! ### C5: `GetTxByAddress` -/

/-- When every remaining record normalizes, the loop appends their messages in order. -/
theorem GetTxByAddressLoop_ok {τ β μ : Type} (P : ParseTxMessageFn τ β μ) (ret : TxResult τ β) :
    ∀ (l : List τ) (txList : List (Option μ)), (∀ t ∈ l, (P ret t).2 = none) →
      GetTxByAddressLoop P ret l txList
        = (some { Code := ReturnCode.SUCCESS, Msg := "get transactions fail",
                  Tx := txList ++ l.map (fun t => (P ret t).1) }, none) := by
  intro l
  induction l with
  | nil => intro txList _; simp [GetTxByAddressLoop]
  | cons t rest ih =>
    intro txList hall
    have ht : (P ret t).2 = none := hall t (List.mem_cons_self t rest)
    have hrest : ∀ u ∈ rest, (P ret u).2 = none :=
      fun u hu => hall u (List.mem_cons_of_mem t hu)
    unfold GetTxByAddressLoop
    rcases hp : P ret t with ⟨m, e⟩
    rw [hp] at ht
    simp only at ht
    subst ht
    simp only
    rw [ih (txList ++ [m]) hrest]
    simp [hp]

/-- When the records `pre` normalize and the next record `t` fails with `e`, the loop stops
with `e` and an `ERROR` response without transactions. -/
theorem GetTxByAddressLoop_fail {τ β μ : Type} (P : ParseTxMessageFn τ β μ) (ret : TxResult τ β)
    (t : τ) (post : List τ) (e : GoError) (he : (P ret t).2 = some e) :
    ∀ (pre : List τ) (txList : List (Option μ)), (∀ u ∈ pre, (P ret u).2 = none) →
      GetTxByAddressLoop P ret (pre ++ t :: post) txList
        = (some { Code := ReturnCode.ERROR, Msg := "get transactions fail", Tx := [] },
           some e) := by
  intro pre
  induction pre with
  | nil =>
    intro txList _
    simp only [List.nil_append]
    unfold GetTxByAddressLoop
    rcases hp : P ret t with ⟨m, e2⟩
    rw [hp] at he
    simp only at he
    subst he
    rfl
  | cons u rest ih =>
    intro txList hall
    have hu : (P ret u).2 = none := hall u (List.mem_cons_self u rest)
    have hrest : ∀ v ∈ rest, (P ret v).2 = none :=
      fun v hv => hall v (List.mem_cons_of_mem u hv)
    simp only [List.cons_append]
    unfold GetTxByAddressLoop
    rcases hp : P ret u with ⟨m, e2⟩
    rw [hp] at hu
    simp only at hu
    subst hu
    simp only
    exact ih (txList ++ [m]) hrest

/-- A list with a failing record splits at its first failing record. -/
theorem first_failing_record {τ β μ : Type} (P : ParseTxMessageFn τ β μ) (ret : TxResult τ β) :
    ∀ l : List τ, (∃ t ∈ l, (P ret t).2 ≠ none) →
      ∃ (pre : List τ) (t : τ) (post : List τ) (e : GoError),
        l = pre ++ t :: post ∧ (∀ u ∈ pre, (P ret u).2 = none) ∧ (P ret t).2 = some e := by
  intro l
  induction l with
  | nil => rintro ⟨t, ht, _⟩; cases ht
  | cons a rest ih =>
    intro hex
    cases ha : (P ret a).2 with
    | some e => exact ⟨[], a, rest, e, rfl, by simp, ha⟩
    | none =>
      have hex2 : ∃ t ∈ rest, (P ret t).2 ≠ none := by
        obtain ⟨t, ht, hne⟩ := hex
        rcases List.mem_cons.mp ht with rfl | hin
        · exact absurd ha hne
        · exact ⟨t, hin, hne⟩
      obtain ⟨pre, t, post, e, hl, hpre, he⟩ := ih hex2
      refine ⟨a :: pre, t, post, e, by simp [hl], ?_, he⟩
      intro u hu
      rcases List.mem_cons.mp hu with rfl | hin
      · exact ha
      · exact hpre u hin

/-- C5: for every page `ret` the backend returns to `GetTxByAddress`: if every record
normalizes, the result is `SUCCESS` with a nil error and `Tx` the normalized records in the
backend's order, of the same length (an empty page gives the empty list); if some record fails
to normalize, the call fails with the error of a failing record, the first one, and the
response is `ERROR` without any transaction. -/
theorem C5_GetTxByAddress_all_or_nothing {τ β μ : Type} (c : ChainAdaptor τ β)
    (P : ParseTxMessageFn τ β μ) (req : TxAddressRequest) (ret : TxResult τ β)
    (h : c.tonDataClient.GetTxByAddr req.Address req.Page req.Pagesize = Except.ok ret) :
    ((∀ t ∈ ret.Transactions, (P ret t).2 = none) →
      c.GetTxByAddress P req
          = (some { Code := ReturnCode.SUCCESS, Msg := "get transactions fail",
                    Tx := ret.Transactions.map (fun t => (P ret t).1) }, none) ∧
        (ret.Transactions.map (fun t => (P ret t).1)).length = ret.Transactions.length) ∧
    (ret.Transactions = [] →
      c.GetTxByAddress P req
        = (some { Code := ReturnCode.SUCCESS, Msg := "get transactions fail", Tx := [] },
           none)) ∧
    (∀ (pre : List τ) (t : τ) (post : List τ) (e : GoError),
      ret.Transactions = pre ++ t :: post → (∀ u ∈ pre, (P ret u).2 = none) →
      (P ret t).2 = some e →
      c.GetTxByAddress P req
        = (some { Code := ReturnCode.ERROR, Msg := "get transactions fail", Tx := [] },
           some e)) ∧
    ((∃ t ∈ ret.Transactions, (P ret t).2 ≠ none) →
      ∃ t ∈ ret.Transactions, ∃ e : GoError, (P ret t).2 = some e ∧
        c.GetTxByAddress P req
          = (some { Code := ReturnCode.ERROR, Msg := "get transactions fail", Tx := [] },
             some e)) := by
  have hcall : c.GetTxByAddress P req = GetTxByAddressLoop P ret ret.Transactions [] := by
    simp only [ChainAdaptor.GetTxByAddress, h]
  have hfail : ∀ (pre : List τ) (t : τ) (post : List τ) (e : GoError),
      ret.Transactions = pre ++ t :: post → (∀ u ∈ pre, (P ret u).2 = none) →
      (P ret t).2 = some e →
      c.GetTxByAddress P req
        = (some { Code := ReturnCode.ERROR, Msg := "get transactions fail", Tx := [] },
           some e) := by
    intro pre t post e hsplit hpre he
    rw [hcall, hsplit]
    exact GetTxByAddressLoop_fail P ret t post e he pre [] hpre
  refine ⟨?_, ?_, hfail, ?_⟩
  · intro hall
    refine ⟨?_, List.length_map _ _⟩
    rw [hcall, GetTxByAddressLoop_ok P ret ret.Transactions [] hall]
    simp
  · intro hnil
    rw [hcall, hnil]
    rfl
  · intro hex
    obtain ⟨pre, t, post, e, hsplit, hpre, he⟩ := first_failing_record P ret ret.Transactions hex
    refine ⟨t, ?_, e, he, hfail pre t post e hsplit hpre he⟩
    rw [hsplit]
    simp

/-- Witness for C5: on the page `[3, 0, 5]`, whose second record is malformed, the call fails
with that record's error and returns no transaction. -/
theorem C5_GetTxByAddress_all_or_nothing_witness :
    (fixedDataClient (Except.error { Error := "connection refused" })
        (Except.ok { Transactions := [3, 0, 5], Extra := () })).GetTxByAddr "a" 1 10
      = Except.ok { Transactions := [3, 0, 5], Extra := () } ∧
    ChainAdaptor.GetTxByAddress
        (fixedAdaptor (Except.error { Error := "connection refused" })
          (Except.ok { Transactions := [3, 0, 5], Extra := () }))
        sampleParseTxMessage
        { Chain := "Ton", Network := "mainnet", Address := "a", Page := 1, Pagesize := 10 }
      = (some { Code := ReturnCode.ERROR, Msg := "get transactions fail", Tx := [] },
         some { Error := "malformed record" }) :=
  ⟨rfl,
   (C5_GetTxByAddress_all_or_nothing
      (fixedAdaptor (Except.error { Error := "connection refused" })
        (Except.ok { Transactions := [3, 0, 5], Extra := () }))
      sampleParseTxMessage
      { Chain := "Ton", Network := "mainnet", Address := "a", Page := 1, Pagesize := 10 }
      { Transactions := [3, 0, 5], Extra := () } rfl).2.2.1
      [3] 0 [5] { Error := "malformed record" } rfl (by decide) rfl⟩

/-! ### C6: operations the chain does not serve -/

/-- C6 (as stated) fails: `GetExtraData` answers with code `ERROR`, not `SUCCESS`. -/
theorem C6_counterexample :
    ChainAdaptor.GetExtraData offlineAdaptor { Chain := "Ton" }
      = (some { Code := ReturnCode.ERROR, Msg := "Do not support this api", Value := "Ton" },
         none) ∧
    ReturnCode.ERROR ≠ ReturnCode.SUCCESS := by
  decide

/-- C6 (amended): `GetBlockByNumber`, `GetBlockByHash`, `GetBlockByRange`,
`GetBlockHeaderByNumber`, `GetBlockHeaderByHash`, `BuildUnSignTransaction`,
`BuildSignedTransaction`, `DecodeTransaction` and `VerifySignedTransaction` return, for every
request, a nil error and a response with code `SUCCESS` and the non-empty message
`Do not support this rpc interface`; `GetExtraData` returns a nil error and a response with
code `ERROR`, the non-empty message `Do not support this api` and the request's chain as
value; none of the ten results depends on the backend clients. -/
theorem C6_unsupported_operations {τ β ρ : Type} (c c2 : ChainAdaptor τ β) (req : ρ)
    (xreq : ExtraDataRequest) :
    (c.GetBlockByNumber req
        = (some { Code := ReturnCode.SUCCESS, Msg := "Do not support this rpc interface" },
           none) ∧
      c.GetBlockByHash req
        = (some { Code := ReturnCode.SUCCESS, Msg := "Do not support this rpc interface" },
           none) ∧
      c.GetBlockByRange req
        = (some { Code := ReturnCode.SUCCESS, Msg := "Do not support this rpc interface" },
           none) ∧
      c.GetBlockHeaderByNumber req
        = (some { Code := ReturnCode.SUCCESS, Msg := "Do not support this rpc interface" },
           none) ∧
      c.GetBlockHeaderByHash req
        = (some { Code := ReturnCode.SUCCESS, Msg := "Do not support this rpc interface" },
           none) ∧
      c.BuildUnSignTransaction req
        = (some { Code := ReturnCode.SUCCESS, Msg := "Do not support this rpc interface" },
           none) ∧
      c.BuildSignedTransaction req
        = (some { Code := ReturnCode.SUCCESS, Msg := "Do not support this rpc interface" },
           none) ∧
      c.DecodeTransaction req
        = (some { Code := ReturnCode.SUCCESS, Msg := "Do not support this rpc interface" },
           none) ∧
      c.VerifySignedTransaction req
        = (some { Code := ReturnCode.SUCCESS, Msg := "Do not support this rpc interface" },
           none)) ∧
    "Do not support this rpc interface" ≠ "" ∧
    c.GetExtraData xreq
      = (some { Code := ReturnCode.ERROR, Msg := "Do not support this api",
                Value := xreq.Chain }, none) ∧
    "Do not support this api" ≠ "" ∧
    (c.GetBlockByNumber req = c2.GetBlockByNumber req ∧
      c.GetBlockByHash req = c2.GetBlockByHash req ∧
      c.GetBlockByRange req = c2.GetBlockByRange req ∧
      c.GetBlockHeaderByNumber req = c2.GetBlockHeaderByNumber req ∧
      c.GetBlockHeaderByHash req = c2.GetBlockHeaderByHash req ∧
      c.BuildUnSignTransaction req = c2.BuildUnSignTransaction req ∧
      c.BuildSignedTransaction req = c2.BuildSignedTransaction req ∧
      c.DecodeTransaction req = c2.DecodeTransaction req ∧
      c.VerifySignedTransaction req = c2.VerifySignedTransaction req ∧
      c.GetExtraData xreq = c2.GetExtraData xreq) := by
  refine ⟨⟨rfl, rfl, rfl, rfl, rfl, rfl, rfl, rfl, rfl⟩, by decide, rfl, by decide,
    ⟨rfl, rfl, rfl, rfl, rfl, rfl, rfl, rfl, rfl, rfl⟩⟩

/-! ### C7: backend failures of `GetAccount` and `GetFee` -/

/-- C7 (code defect in `GetFee`): `GetAccount` signals a backend failure both ways (the
backend's error unchanged, code `ERROR`) and on success returns a nil error, code `SUCCESS`,
the backend's balance and the decimal string of the sequence number; `GetFee` on success
returns a nil error and code `SUCCESS`, but on a backend failure it returns the backend's
error together with a response whose code is `SUCCESS`. -/
theorem C7_backend_failure_signalling {τ β : Type} (c : ChainAdaptor τ β)
    (areq : AccountRequest) (freq : FeeRequest) :
    (∀ err : GoError, c.tonClient.GetAccountInfo areq.Address = Except.error err →
      c.GetAccount areq
        = (some { Code := ReturnCode.ERROR, Msg := "get account info error",
                  Balance := "", Sequence := "" }, some err)) ∧
    (∀ (balance : String) (nonce : Nat),
      c.tonClient.GetAccountInfo areq.Address = Except.ok (balance, nonce) →
      c.GetAccount areq
        = (some { Code := ReturnCode.SUCCESS, Msg := "get account info success",
                  Balance := balance, Sequence := FormatUint nonce }, none)) ∧
    (∀ ret : EstimateFeeResult,
      c.tonDataClient.GetEstimateFee freq.Address freq.RawTx = Except.ok ret →
      (c.GetFee freq).2 = none ∧
        (c.GetFee freq).1.map FeeResponse.Code = some ReturnCode.SUCCESS) ∧
    (∀ err : GoError,
      c.tonDataClient.GetEstimateFee freq.Address freq.RawTx = Except.error err →
      c.GetFee freq
        = (some { Code := ReturnCode.SUCCESS, Msg := "get fee fail", NormalFee := "" },
           some err)) := by
  refine ⟨?_, ?_, ?_, ?_⟩
  · intro err herr
    simp only [ChainAdaptor.GetAccount, herr]
  · intro balance nonce hok
    simp only [ChainAdaptor.GetAccount, hok]
  · intro ret hok
    simp only [ChainAdaptor.GetFee, hok, Option.map_some', and_self]
  · intro err herr
    simp only [ChainAdaptor.GetFee, herr]

/-- Witness for C7: with an unreachable data backend `GetFee` returns the backend error and a
`SUCCESS`-coded response; with a node answering balance `1000` and sequence `7`,
`GetAccount` returns them with sequence `"7"`. -/
theorem C7_backend_failure_signalling_witness :
    ChainAdaptor.GetFee offlineAdaptor
        { Chain := "Ton", Network := "mainnet", Address := "", RawTx := "" }
      = (some { Code := ReturnCode.SUCCESS, Msg := "get fee fail", NormalFee := "" },
         some { Error := "connection refused" }) ∧
    ChainAdaptor.GetAccount (accountAdaptor "1000" 7)
        { Chain := "Ton", Network := "mainnet", Address := "", ContractAddress := "" }
      = (some { Code := ReturnCode.SUCCESS, Msg := "get account info success",
                Balance := "1000", Sequence := FormatUint 7 }, none) :=
  ⟨(C7_backend_failure_signalling offlineAdaptor
      { Chain := "Ton", Network := "mainnet", Address := "", ContractAddress := "" }
      { Chain := "Ton", Network := "mainnet", Address := "", RawTx := "" }).2.2.2
      { Error := "connection refused" } rfl,
   (C7_backend_failure_signalling (accountAdaptor "1000" 7)
      { Chain := "Ton", Network := "mainnet", Address := "", ContractAddress := "" }
      { Chain := "Ton", Network := "mainnet", Address := "", RawTx := "" }).2.1
      "1000" 7 rfl⟩

/-! ### C8, C10: `GetTxByHash` -/

/-- The result of `GetTxByHash` on a backend answer with at least one record. -/
theorem GetTxByHash_cons {τ β μ : Type} (c : ChainAdaptor τ β) (P : ParseTxMessageFn τ β μ)
    (req : TxHashRequest) (ret : TxResult τ β) (tx : τ) (rest : List τ)
    (h : c.tonDataClient.GetTxByTxHash req.Hash = Except.ok ret)
    (ht : ret.Transactions = tx :: rest) :
    c.GetTxByHash P req
      = (some { Code := ReturnCode.SUCCESS, Msg := "get transaction by hash success",
                Tx := (P ret tx).1 }, none) := by
  simp only [ChainAdaptor.GetTxByHash, h, ht]

/-- C8: when the backend call succeeds and reports zero transactions, `GetTxByHash` returns a
nil error and a response with code `ERROR`, the non-empty message `get transactions fail` and
no transaction. -/
theorem C8_GetTxByHash_not_found {τ β μ : Type} (c : ChainAdaptor τ β)
    (P : ParseTxMessageFn τ β μ) (req : TxHashRequest) (ret : TxResult τ β)
    (h : c.tonDataClient.GetTxByTxHash req.Hash = Except.ok ret)
    (hempty : ret.Transactions.length = 0) :
    c.GetTxByHash P req
      = (some { Code := ReturnCode.ERROR, Msg := "get transactions fail", Tx := none }, none) ∧
    "get transactions fail" ≠ "" := by
  have hnil : ret.Transactions = [] := List.length_eq_zero.mp hempty
  refine ⟨?_, by decide⟩
  simp only [ChainAdaptor.GetTxByHash, h, hnil]

/-- Witness for C8: a backend that answers with an empty result set. -/
theorem C8_GetTxByHash_not_found_witness :
    (fixedDataClient (Except.error { Error := "connection refused" })
        (Except.ok { Transactions := [], Extra := () })).GetTxByTxHash "a35c"
      = Except.ok { Transactions := [], Extra := () } ∧
    ChainAdaptor.GetTxByHash
        (fixedAdaptor (Except.error { Error := "connection refused" })
          (Except.ok { Transactions := [], Extra := () }))
        sampleParseTxMessage { Chain := "Ton", Network := "mainnet", Hash := "a35c" }
      = (some { Code := ReturnCode.ERROR, Msg := "get transactions fail", Tx := none }, none) :=
  ⟨rfl,
   (C8_GetTxByHash_not_found
      (fixedAdaptor (Except.error { Error := "connection refused" })
        (Except.ok { Transactions := [], Extra := () }))
      sampleParseTxMessage { Chain := "Ton", Network := "mainnet", Hash := "a35c" }
      { Transactions := [], Extra := () } rfl rfl).1⟩

/-- C10 (as stated) fails: with a normalizer that reads the whole backend answer it is handed,
the answers `[7, 5]` and `[7, 9, 9]`, which have the same first record, give the responses
`Tx = 9` and `Tx = 10`; the records after the first do affect the response. -/
theorem C10_counterexample :
    ChainAdaptor.GetTxByHash
        (fixedAdaptor (Except.error { Error := "connection refused" })
          (Except.ok { Transactions := [7, 5], Extra := () }))
        countingParseTxMessage { Chain := "Ton", Network := "mainnet", Hash := "a35c" }
      = (some { Code := ReturnCode.SUCCESS, Msg := "get transaction by hash success",
                Tx := some 9 }, none) ∧
    ChainAdaptor.GetTxByHash
        (fixedAdaptor (Except.error { Error := "connection refused" })
          (Except.ok { Transactions := [7, 9, 9], Extra := () }))
        countingParseTxMessage { Chain := "Ton", Network := "mainnet", Hash := "a35c" }
      = (some { Code := ReturnCode.SUCCESS, Msg := "get transaction by hash success",
                Tx := some 10 }, none) ∧
    ChainAdaptor.GetTxByHash
        (fixedAdaptor (Except.error { Error := "connection refused" })
          (Except.ok { Transactions := [7, 5], Extra := () }))
        countingParseTxMessage { Chain := "Ton", Network := "mainnet", Hash := "a35c" }
      ≠ ChainAdaptor.GetTxByHash
        (fixedAdaptor (Except.error { Error := "connection refused" })
          (Except.ok { Transactions := [7, 9, 9], Extra := () }))
        countingParseTxMessage { Chain := "Ton", Network := "mainnet", Hash := "a35c" } := by
  decide

/-- C10 (amended): when the backend answer holds at least one record, `GetTxByHash` returns a
nil error and code `SUCCESS` whatever the normalizer reports for the first record: `Tx` is the
message the normalizer, called with the whole backend answer and the first record, returned,
and its error is dropped. The response depends on the backend answer only through that
message: any two calls in which the normalizer returns the same message for the first record
give the same result, whatever the errors and whatever the other records. -/
theorem C10_GetTxByHash_first_record {τ β μ : Type} (c : ChainAdaptor τ β)
    (P : ParseTxMessageFn τ β μ) (req : TxHashRequest) (ret : TxResult τ β) (tx : τ)
    (rest : List τ)
    (h : c.tonDataClient.GetTxByTxHash req.Hash = Except.ok ret)
    (ht : ret.Transactions = tx :: rest) :
    c.GetTxByHash P req
      = (some { Code := ReturnCode.SUCCESS, Msg := "get transaction by hash success",
                Tx := (P ret tx).1 }, none) ∧
    (∀ P2 : ParseTxMessageFn τ β μ, (P2 ret tx).1 = (P ret tx).1 →
      c.GetTxByHash P2 req = c.GetTxByHash P req) ∧
    (∀ (c2 : ChainAdaptor τ β) (P2 : ParseTxMessageFn τ β μ) (ret2 : TxResult τ β) (tx2 : τ)
        (rest2 : List τ),
      c2.tonDataClient.GetTxByTxHash req.Hash = Except.ok ret2 →
      ret2.Transactions = tx2 :: rest2 → (P2 ret2 tx2).1 = (P ret tx).1 →
      c2.GetTxByHash P2 req = c.GetTxByHash P req) := by
  refine ⟨GetTxByHash_cons c P req ret tx rest h ht, ?_, ?_⟩
  · intro P2 hsame
    rw [GetTxByHash_cons c P2 req ret tx rest h ht, GetTxByHash_cons c P req ret tx rest h ht,
      hsame]
  · intro c2 P2 ret2 tx2 rest2 h2 ht2 hsame
    rw [GetTxByHash_cons c2 P2 req ret2 tx2 rest2 h2 ht2,
      GetTxByHash_cons c P req ret tx rest h ht, hsame]

/-- Witness for C10: on the answer `[0, 5]`, whose first record is malformed, the result is
`SUCCESS` with a nil error and the nil message the normalizer returned, and it is the same on
the answer `[0, 9, 9]`, for whose first record the normalizer returns the same message. -/
theorem C10_GetTxByHash_first_record_witness :
    ChainAdaptor.GetTxByHash
        (fixedAdaptor (Except.error { Error := "connection refused" })
          (Except.ok { Transactions := [0, 5], Extra := () }))
        sampleParseTxMessage { Chain := "Ton", Network := "mainnet", Hash := "a35c" }
      = (some { Code := ReturnCode.SUCCESS, Msg := "get transaction by hash success",
                Tx := (sampleParseTxMessage { Transactions := [0, 5], Extra := () } 0).1 },
         none) ∧
    (sampleParseTxMessage { Transactions := [0, 5], Extra := () } 0)
      = (none, some { Error := "malformed record" }) ∧
    ChainAdaptor.GetTxByHash
        (fixedAdaptor (Except.error { Error := "connection refused" })
          (Except.ok { Transactions := [0, 9, 9], Extra := () }))
        sampleParseTxMessage { Chain := "Ton", Network := "mainnet", Hash := "a35c" }
      = ChainAdaptor.GetTxByHash
        (fixedAdaptor (Except.error { Error := "connection refused" })
          (Except.ok { Transactions := [0, 5], Extra := () }))
        sampleParseTxMessage { Chain := "Ton", Network := "mainnet", Hash := "a35c" } :=
  ⟨(C10_GetTxByHash_first_record
      (fixedAdaptor (Except.error { Error := "connection refused" })
        (Except.ok { Transactions := [0, 5], Extra := () }))
      sampleParseTxMessage { Chain := "Ton", Network := "mainnet", Hash := "a35c" }
      { Transactions := [0, 5], Extra := () } 0 [5] rfl rfl).1,
   rfl,
   (C10_GetTxByHash_first_record
      (fixedAdaptor (Except.error { Error := "connection refused" })
        (Except.ok { Transactions := [0, 5], Extra := () }))
      sampleParseTxMessage { Chain := "Ton", Network := "mainnet", Hash := "a35c" }
      { Transactions := [0, 5], Extra := () } 0 [5] rfl rfl).2.2
      (fixedAdaptor (Except.error { Error := "connection refused" })
        (Except.ok { Transactions := [0, 9, 9], Extra := () }))
      sampleParseTxMessage { Transactions := [0, 9, 9], Extra := () } 0 [9, 9] rfl rfl rfl⟩

end Ton
